import Mathlib

/-!
Verification of the constraint-synthesis core of the arkwork-examples
repository (src/cubic_demo.rs, src/multiply_demo.rs, src/marlin_demo.rs,
src/cubic_gadget/mod.rs, src/cubic_gadget/constraints.rs).

The circuits are written against the arkworks `ark-relations` R1CS
constraint system.  We embed the relevant slice of that external library:

* a `ConstraintSystem` allocates instance (public-input) and witness
  variables; `instAssignment` starts as `[1]` (the distinguished One
  variable at instance index 0), exactly as in
  `ark_relations::r1cs::ConstraintSystem::new`;
* in `Setup` mode the value closures are *not* invoked; in `Prove` mode
  they are invoked and their errors propagate;
* `enforce_constraint` appends a rank-1 constraint `(A, B, C)` of linear
  combinations; satisfaction of a constraint means `A·B = C` under the
  current assignment.

Rust-side partiality is made explicit: a value closure or circuit body
returns `Except RunError _`, where `RunError.synth e` models a returned
`Err(e) : Result<_, SynthesisError>` and `RunError.panicked` models a Rust
panic (an `Option::unwrap` on `None`, or an overflow-checked `usize`
subtraction that underflows, as in `num_variables - 3`).
-/

set_option autoImplicit false
set_option linter.unusedSectionVars false
set_option linter.unusedVariables false

namespace Arkwork

/-- The `ark_relations::r1cs::SynthesisError` variants used by this code. -/
inductive SynthesisError where
  | AssignmentMissing
  deriving DecidableEq

/-- Outcome channel of a Rust computation: a returned `Err` of a
`SynthesisError`, or a panic (`unwrap` on `None`, arithmetic-overflow check). -/
inductive RunError where
  | synth (e : SynthesisError)
  | panicked
  deriving DecidableEq

/-- Constraint-system mode: `Setup` (shape only; value closures are not
invoked) or `Prove` (value closures are invoked and must succeed). -/
inductive Mode where
  | Setup
  | Prove
  deriving DecidableEq

/-- Role tag recorded for each allocation, in allocation order. -/
inductive Role where
  | Witness
  | PublicInput
  deriving DecidableEq

/-- A variable of the constraint system, mirroring
`ark_relations::r1cs::Variable`: the distinguished One, an instance
(public input) variable, or a witness variable. -/
inductive Var where
  | one
  | inst (i : Nat)
  | wit (i : Nat)
  deriving DecidableEq

/-- A linear combination: a list of (coefficient, variable) terms.
`lc!() + x` is `[(1, x)]`; a term `(c, One)` is the affine constant `c`. -/
abbrev LinComb (F : Type) := List (F × Var)

/-- The slice of `ark_relations::r1cs::ConstraintSystem` state the demo
circuits touch.  `allocTrace` records the role of each allocation made by
the circuit, in order (it is a proof artifact: the Rust struct exposes the
same information through its variable counters and assignment vectors). -/
structure CS (F : Type) where
  mode : Mode
  instAssignment : List F
  witAssignment : List F
  numInst : Nat
  numWit : Nat
  constraints : List (LinComb F × LinComb F × LinComb F)
  allocTrace : List Role
  deriving DecidableEq

variable {F : Type} [Field F] [DecidableEq F]

/-- A freshly created constraint system in the given mode:
one instance variable (the constant One, value 1), nothing else.
Mirrors `ConstraintSystem::new` / `ConstraintSystem::new_ref`. -/
def CS.init (m : Mode) : CS F :=
  { mode := m
    instAssignment := [1]
    witAssignment := []
    numInst := 1
    numWit := 0
    constraints := []
    allocTrace := [] }

/-- `Option::ok_or(SynthesisError::AssignmentMissing)`. -/
def okOr (o : Option F) : Except RunError F :=
  match o with
  | some v => .ok v
  | none => .error (.synth .AssignmentMissing)

/-- `Option::unwrap`: panics on `None`. -/
def unwrapOpt (o : Option F) : Except RunError F :=
  match o with
  | some v => .ok v
  | none => .error .panicked

/-- Overflow-checked `usize` subtraction `a - b`: panics when `b > a`
(Rust debug-mode semantics of the underflowing subtractions in
`multiply_demo.rs`). -/
def checkedSub (a b : Nat) : Except RunError Nat :=
  if b ≤ a then .ok (a - b) else .error .panicked

/-- `ConstraintSystemRef::new_witness_variable`: in setup mode the value
closure is not invoked; in proving mode it is invoked and its error
propagates; on success the value is appended to the witness assignment. -/
def CS.new_witness_variable (cs : CS F) (f : Unit → Except RunError F) :
    Except RunError (Var × CS F) :=
  match cs.mode with
  | .Setup =>
      .ok (.wit cs.numWit,
        { cs with
            numWit := cs.numWit + 1
            allocTrace := cs.allocTrace ++ [.Witness] })
  | .Prove => do
      let v ← f ()
      pure (.wit cs.numWit,
        { cs with
            numWit := cs.numWit + 1
            witAssignment := cs.witAssignment ++ [v]
            allocTrace := cs.allocTrace ++ [.Witness] })

/-- `ConstraintSystemRef::new_input_variable`: same contract as
`new_witness_variable` but allocates a public-input (instance) variable. -/
def CS.new_input_variable (cs : CS F) (f : Unit → Except RunError F) :
    Except RunError (Var × CS F) :=
  match cs.mode with
  | .Setup =>
      .ok (.inst cs.numInst,
        { cs with
            numInst := cs.numInst + 1
            allocTrace := cs.allocTrace ++ [.PublicInput] })
  | .Prove => do
      let v ← f ()
      pure (.inst cs.numInst,
        { cs with
            numInst := cs.numInst + 1
            instAssignment := cs.instAssignment ++ [v]
            allocTrace := cs.allocTrace ++ [.PublicInput] })

/-- `ConstraintSystemRef::enforce_constraint`: append the rank-1
constraint `(a, b, c)`. -/
def CS.enforce_constraint (cs : CS F) (a b c : LinComb F) :
    Except RunError (CS F) :=
  .ok { cs with constraints := cs.constraints ++ [(a, b, c)] }

/-- Value of a variable under the assignments held by the system. -/
def CS.varValue (cs : CS F) : Var → F
  | .one => 1
  | .inst i => cs.instAssignment.getD i 0
  | .wit i => cs.witAssignment.getD i 0

/-- Evaluate a linear combination under the system's assignment. -/
def CS.lcEval (cs : CS F) (l : LinComb F) : F :=
  (l.map (fun t => t.1 * cs.varValue t.2)).sum

/-- `ConstraintSystemRef::is_satisfied`: every constraint `(A, B, C)`
satisfies `A·B = C` under the current assignment. -/
def CS.satisfiedB (cs : CS F) : Bool :=
  cs.constraints.all
    (fun t => decide (cs.lcEval t.1 * cs.lcEval t.2.1 = cs.lcEval t.2.2))

/-- `CubicDemoCircuit::generate_constraints` (src/cubic_demo.rs, lines
14–79): flatten `x³ + x + 5 = out`.  The circuit struct's only field is
`x : Option<F>`, passed here as `x?`.  Every `let` of the Rust body is kept,
in order, including the eager computation of `x_cubed_val` whose closure
calls `x_val.unwrap()`. -/
def CubicDemoCircuit.generate_constraints (x? : Option F) (cs : CS F) :
    Except RunError (CS F) := do
  let x_val := x?
  let (x, cs) ← cs.new_witness_variable (fun _ => okOr x_val)
  let tmp_1_val := x_val.map (fun e => e * e)
  let (tmp_1, cs) ← cs.new_witness_variable (fun _ => okOr tmp_1_val)
  let cs ← cs.enforce_constraint [(1, x)] [(1, x)] [(1, tmp_1)]
  let x_cubed_val ←
    match tmp_1_val with
    | none => .ok (none : Option F)
    | some e => do
        let xv ← unwrapOpt x_val
        pure (some (e * xv))
  let (x_cubed, cs) ← cs.new_witness_variable (fun _ => okOr x_cubed_val)
  let cs ← cs.enforce_constraint [(1, tmp_1)] [(1, x)] [(1, x_cubed)]
  let (out, cs) ← cs.new_input_variable (fun _ => do
    let tmp ← unwrapOpt x_cubed_val
    let xv ← unwrapOpt x_val
    pure (tmp + xv + (5 : F)))
  let cs ← cs.enforce_constraint
    [(1, x_cubed), (1, x), ((5 : F), Var.one)] [(1, Var.one)] [(1, out)]
  pure cs

/-- `CubicDemoCircuit::generate_constraints` of src/marlin_demo.rs (lines
15–62): the body is a verbatim duplicate of src/cubic_demo.rs; the struct
adds two sizing fields `num_constraints`, `num_variables` that the body
never reads. -/
def MarlinCubicDemoCircuit.generate_constraints (x? : Option F)
    (num_constraints num_variables : Nat) (cs : CS F) :
    Except RunError (CS F) :=
  CubicDemoCircuit.generate_constraints x? cs

/-- The padding-allocation loop of `MultiplyDemoCircuit::generate_constraints`
(src/multiply_demo.rs, lines 31–33): `n` iterations of
`cs.new_witness_variable(|| self.a.ok_or(AssignmentMissing))?`. -/
def allocPad (a? : Option F) : Nat → CS F → Except RunError (CS F)
  | 0, cs => .ok cs
  | n + 1, cs => do
      let (_, cs) ← cs.new_witness_variable (fun _ => okOr a?)
      allocPad a? n cs

/-- The constraint-emission loop of `MultiplyDemoCircuit::generate_constraints`
(src/multiply_demo.rs, lines 35–37): `n` iterations of
`cs.enforce_constraint(lc!() + a, lc!() + b, lc!() + c)?`. -/
def enforcePad (a b c : Var) : Nat → CS F → Except RunError (CS F)
  | 0, cs => .ok cs
  | n + 1, cs => do
      let cs ← cs.enforce_constraint [(1, a)] [(1, b)] [(1, c)]
      enforcePad a b c n cs

/-- `MultiplyDemoCircuit::generate_constraints` (src/multiply_demo.rs,
lines 17–40; duplicated verbatim in src/marlin_demo.rs, lines 73–98):
allocate witnesses `a`, `b`, public input `c = a·b`, then
`num_variables - 3` inert witnesses copying `a`'s value and
`num_constraints - 1` copies of the constraint `a·b = c`.  The two `usize`
subtractions are overflow-checked (`checkedSub`): they panic, rather than
return a `SynthesisError`, when the parameter is below the bound. -/
def MultiplyDemoCircuit.generate_constraints (a? b? : Option F)
    (num_constraints num_variables : Nat) (cs : CS F) :
    Except RunError (CS F) := do
  let (a, cs) ← cs.new_witness_variable (fun _ => okOr a?)
  let (b, cs) ← cs.new_witness_variable (fun _ => okOr b?)
  let (c, cs) ← cs.new_input_variable (fun _ => do
    let av ← okOr a?
    let bv ← okOr b?
    pure (av * bv))
  let nPad ← checkedSub num_variables 3
  let cs ← allocPad a? nPad cs
  let nCon ← checkedSub num_constraints 1
  let cs ← enforcePad a b c nCon cs
  pure cs

/-- `SolutionDemo::verify` (src/cubic_gadget/mod.rs, lines 31–34), the
native evaluator: `Ok((x * x * x + x + F::from(5u8)) == y.inner)`.  The
`ParamType` wrappers are transparent newtypes around a field element, so
`x` and `y` are passed directly. -/
def SolutionDemo.verify (x y : F) : Except String Bool :=
  .ok (decide (x * x * x + x + 5 = y))

/-! ### The circuit gadget (src/cubic_gadget/constraints.rs)

`SolutionDemoGadget::verify` computes `x * x * x + x + 5` over
`ark_r1cs_std::fields::fp::FpVar` values and compares with `is_eq`.
We embed the `ark-r1cs-std` 0.3 semantics of the operations it uses:

* `AllocatedFp::mul` allocates a fresh witness holding the product and
  enforces `(self)·(other) = (product)`;
* `AllocatedFp` addition (and addition of a constant) builds a symbolic
  linear combination and allocates **no** constraint; we inline the
  linear combination directly (the Rust side names it via `new_lc`, which
  is evaluation-equivalent);
* `is_eq` is `is_neq(..).not()`. `AllocatedFp::is_neq` allocates a boolean
  witness `b` (with the boolean constraint `(1 - b)·b = 0`) holding
  `self != other`, a multiplier witness `m` holding
  `(self - other)⁻¹` if they differ and `1` otherwise, and enforces
  `(self - other)·m = b` and `(self - other)·(1 - b) = 0`;
  `Boolean::not` is constraint-free.
-/

/-- An `FpVar` in "Var" form: its concrete value together with the linear
combination that denotes it inside the constraint system. -/
structure FpVarS (F : Type) where
  value : F
  lc : LinComb F

/-- `FpVar::new_witness` with an always-succeeding value closure, as used
by the gadget test harness for both `x` and `y`. -/
def FpVarS.new_witness (cs : CS F) (v : F) : Except RunError (FpVarS F × CS F) := do
  let (x, cs) ← cs.new_witness_variable (fun _ => .ok v)
  pure (⟨v, [(1, x)]⟩, cs)

/-- `AllocatedFp::mul`: allocate the product witness and enforce
`self · other = product`. -/
def FpVarS.mul (cs : CS F) (x y : FpVarS F) : Except RunError (FpVarS F × CS F) := do
  let (p, cs) ← cs.new_witness_variable (fun _ => .ok (x.value * y.value))
  let cs ← cs.enforce_constraint x.lc y.lc [(1, p)]
  pure (⟨x.value * y.value, [(1, p)]⟩, cs)

/-- `AllocatedFp::add`: symbolic, constraint-free. -/
def FpVarS.add (x y : FpVarS F) : FpVarS F :=
  ⟨x.value + y.value, x.lc ++ y.lc⟩

/-- `AllocatedFp::add_constant`: symbolic, constraint-free. -/
def FpVarS.add_constant (x : FpVarS F) (c : F) : FpVarS F :=
  ⟨x.value + c, x.lc ++ [(c, Var.one)]⟩

/-- The linear combination `self - other` used by `is_neq`. -/
def lcSub (a b : LinComb F) : LinComb F :=
  a ++ b.map (fun t => (-t.1, t.2))

/-- `AllocatedFp::is_neq` (ark-r1cs-std 0.3): returns the boolean value it
computes together with the variable carrying it and the updated system. -/
def FpVarS.is_neq (cs : CS F) (x y : FpVarS F) :
    Except RunError (Bool × Var × CS F) := do
  let bval : Bool := decide (x.value ≠ y.value)
  let (b, cs) ← cs.new_witness_variable
    (fun _ => .ok (if bval then (1 : F) else 0))
  let cs ← cs.enforce_constraint [(1, Var.one), (-1, b)] [(1, b)] []
  let (m, cs) ← cs.new_witness_variable
    (fun _ => .ok (if bval then (x.value - y.value)⁻¹ else 1))
  let cs ← cs.enforce_constraint (lcSub x.lc y.lc) [(1, m)] [(1, b)]
  let cs ← cs.enforce_constraint (lcSub x.lc y.lc) [(1, Var.one), (-1, b)] []
  pure (bval, b, cs)

/-- `SolutionDemoGadget::verify` (src/cubic_gadget/constraints.rs, lines
57–61): `eval = x * x * x + x + 5; eval.is_eq(&y)`.  Returns the concrete
value of the produced circuit boolean (`is_eq = is_neq.not()`) together
with the extended constraint system. -/
def SolutionDemoGadget.verify (cs : CS F) (x y : FpVarS F) :
    Except RunError (Bool × CS F) := do
  let (m1, cs) ← FpVarS.mul cs x x
  let (m2, cs) ← FpVarS.mul cs m1 x
  let eval := (FpVarS.add m2 x).add_constant 5
  let (bneq, _, cs) ← FpVarS.is_neq cs eval y
  pure (!bneq, cs)

/-- The gadget run of the test harness in src/cubic_gadget/constraints.rs
(lines 71–84): fresh proving-mode system, allocate `x` and `y` as
witnesses, run `SolutionDemoGadget::verify`. -/
def gadgetRun (xv yv : F) : Except RunError (Bool × CS F) := do
  let cs : CS F := CS.init .Prove
  let (x, cs) ← FpVarS.new_witness cs xv
  let (y, cs) ← FpVarS.new_witness cs yv
  SolutionDemoGadget.verify cs x y

/-! ### Computation lemmas for the cubic circuit -/

/-- The three rank-1 constraints emitted by cubic flattening:
`x·x = tmp_1`, `tmp_1·x = x_cubed`, `(x_cubed + x + 5·one)·one = out`. -/
def cubicConstraints (F : Type) [Field F] :
    List (LinComb F × LinComb F × LinComb F) :=
  [([(1, .wit 0)], [(1, .wit 0)], [(1, .wit 1)]),
   ([(1, .wit 1)], [(1, .wit 0)], [(1, .wit 2)]),
   ([(1, .wit 2), (1, .wit 0), ((5 : F), .one)], [(1, .one)], [(1, .inst 1)])]

theorem cubicRun_prove (v : F) :
    CubicDemoCircuit.generate_constraints (some v) (CS.init .Prove) =
      .ok { mode := .Prove
            instAssignment := [1, v * v * v + v + 5]
            witAssignment := [v, v * v, v * v * v]
            numInst := 2
            numWit := 3
            constraints := cubicConstraints F
            allocTrace := [.Witness, .Witness, .Witness, .PublicInput] } := rfl

theorem cubicRun_setup (x? : Option F) :
    CubicDemoCircuit.generate_constraints x? (CS.init .Setup) =
      .ok { mode := .Setup
            instAssignment := [1]
            witAssignment := []
            numInst := 2
            numWit := 3
            constraints := cubicConstraints F
            allocTrace := [.Witness, .Witness, .Witness, .PublicInput] } := by
  cases x? <;> rfl

@[simp] theorem except_bind_ok {α β : Type} (a : α)
    (f : α → Except RunError β) : (Except.ok a >>= f) = f a := rfl

@[simp] theorem except_bind_error {α β : Type} (e : RunError)
    (f : α → Except RunError β) :
    ((Except.error e : Except RunError α) >>= f) = Except.error e := rfl

theorem cubicRun_none_prove :
    CubicDemoCircuit.generate_constraints (none : Option F) (CS.init .Prove) =
      .error (.synth .AssignmentMissing) := rfl

/-- The concrete prime field used for closed counterexamples and witnesses;
a stand-in for the BLS12-381 scalar field of the Rust tests (any prime
larger than all constants involved behaves identically here). -/
instance fact_prime_101 : Fact (Nat.Prime 101) := ⟨by norm_num⟩

/-- C2 counterexample: cubic flattening of the descriptor `x = 3` over a
concrete prime field emits exactly **3** rank-1 constraints, not 4 as the
claim states (the two affine equations of the flattening sketch are folded
into the single constraint `(x_cubed + x + 5·one)·one = out`). -/
theorem cubic_constraint_count_cex :
    Except.map (fun cs => cs.constraints.length)
      (CubicDemoCircuit.generate_constraints (some (3 : ZMod 101))
        (CS.init .Prove)) = .ok 3 ∧
    Except.map (fun cs => cs.constraints.length)
      (CubicDemoCircuit.generate_constraints (some (3 : ZMod 101))
        (CS.init .Prove)) ≠ .ok 4 := by
  refine ⟨rfl, fun h => ?_⟩
  exact absurd (Except.ok.inj h) (by decide)

/-- C2 (amended): in either mode, cubic flattening encodes `x³ + x + 5 = y`
as exactly **three** rank-1 constraints, using exactly two intermediate
witness variables (`tmp_1`, `x_cubed`) besides the witness `x` — three
witnesses in total, in the role sequence Witness, Witness, Witness,
PublicInput. -/
theorem cubic_flattening_three_constraints (m : Mode) (v : F) :
    ∃ cs : CS F,
      CubicDemoCircuit.generate_constraints (some v) (CS.init m) = .ok cs ∧
      cs.constraints = cubicConstraints F ∧
      cs.constraints.length = 3 ∧
      cs.numWit = 3 ∧
      cs.allocTrace = [.Witness, .Witness, .Witness, .PublicInput] := by
  cases m
  · exact ⟨_, cubicRun_setup (some v), rfl, rfl, rfl, rfl⟩
  · exact ⟨_, cubicRun_prove v, rfl, rfl, rfl, rfl⟩

/-- C5: synthesizing the cubic descriptor with `x = None` against a
proving-mode constraint system returns `Err(AssignmentMissing)` — no panic,
no default value — and the very first allocation (the witness `x`) is the
step that fails on a fresh proving-mode system. -/
theorem cubic_none_prove_assignment_missing :
    CubicDemoCircuit.generate_constraints (none : Option F) (CS.init .Prove) =
        .error (.synth .AssignmentMissing) ∧
    CS.new_witness_variable (CS.init .Prove)
        (fun _ => okOr (none : Option F)) =
        .error (.synth .AssignmentMissing) :=
  ⟨rfl, rfl⟩

/-- C6: two proving-mode runs of cubic flattening with different concrete
`x` values allocate variables in the identical role sequence
`Witness, Witness, Witness, PublicInput`; `out` is the sole public input
allocated by the circuit (the system's instance variables are only the
constant One plus `out`). -/
theorem cubic_allocation_order_stable (v₁ v₂ : F) :
    ∃ cs₁ cs₂ : CS F,
      CubicDemoCircuit.generate_constraints (some v₁) (CS.init .Prove) = .ok cs₁ ∧
      CubicDemoCircuit.generate_constraints (some v₂) (CS.init .Prove) = .ok cs₂ ∧
      cs₁.allocTrace = [.Witness, .Witness, .Witness, .PublicInput] ∧
      cs₂.allocTrace = cs₁.allocTrace ∧
      cs₁.allocTrace.count .PublicInput = 1 ∧
      cs₁.numInst = 2 := by
  exact ⟨_, _, cubicRun_prove v₁, cubicRun_prove v₂, rfl, rfl, rfl, rfl⟩

/-- C7: for the descriptor `x = 3` in proving mode, cubic flattening
assigns the witnesses `x = 3, tmp_1 = 9, x_cubed = 27`, the public input
`out = 35` (instance assignment `[1, 35]`, index 0 being the constant One),
and the resulting constraint system is satisfied by that assignment. -/
theorem cubic_roundtrip_x_three :
    ∃ cs : CS F,
      CubicDemoCircuit.generate_constraints (some (3 : F)) (CS.init .Prove) =
          .ok cs ∧
      cs.witAssignment = [3, 9, 27] ∧
      cs.instAssignment = [1, 35] ∧
      cs.satisfiedB = true := by
  refine ⟨_, cubicRun_prove (3 : F), ?_, ?_, ?_⟩
  · norm_num
  · norm_num
  · simp [CS.satisfiedB, cubicConstraints, CS.lcEval, CS.varValue, List.getD]
    norm_num

/-- C10: the `unwrap` calls inside the later value closures of cubic
synthesis (`x_cubed_val`'s closure and the `out` closure) never panic, for
any starting constraint system (either mode) and any descriptor: whenever
those closures run, the earlier allocations have already forced `x_val`
(hence `tmp_1_val` and `x_cubed_val`) to be `Some`.  This covers both the
src/cubic_demo.rs circuit and its verbatim duplicate in src/marlin_demo.rs. -/
theorem cubic_value_closures_never_panic (cs : CS F) (x? : Option F)
    (nc nv : Nat) :
    CubicDemoCircuit.generate_constraints x? cs ≠ .error .panicked ∧
    MarlinCubicDemoCircuit.generate_constraints x? nc nv cs ≠
      .error .panicked := by
  obtain ⟨m, ia, wa, ni, nw, con, tr⟩ := cs
  refine ⟨?_, ?_⟩ <;>
    cases m <;> cases x? <;>
      simp [MarlinCubicDemoCircuit.generate_constraints,
        CubicDemoCircuit.generate_constraints, CS.new_witness_variable,
        CS.new_input_variable, CS.enforce_constraint, okOr, unwrapOpt]

/-! ### Computation lemmas for the product circuit -/

theorem allocPad_prove (av : F) (n : Nat) :
    ∀ (ia wa : List F) (ni nw : Nat)
      (con : List (LinComb F × LinComb F × LinComb F)) (tr : List Role),
      allocPad (some av) n ⟨.Prove, ia, wa, ni, nw, con, tr⟩ =
        .ok ⟨.Prove, ia, wa ++ List.replicate n av, ni, nw + n, con,
             tr ++ List.replicate n .Witness⟩ := by
  induction n with
  | zero =>
      intro ia wa ni nw con tr
      simp [allocPad]
  | succ n ih =>
      intro ia wa ni nw con tr
      have step : allocPad (some av) (n + 1)
            (⟨.Prove, ia, wa, ni, nw, con, tr⟩ : CS F) =
          allocPad (some av) n
            ⟨.Prove, ia, wa ++ [av], ni, nw + 1, con, tr ++ [.Witness]⟩ := rfl
      rw [step, ih]
      simp [List.replicate_succ, List.append_assoc, Nat.add_assoc,
        Nat.add_comm, Nat.add_left_comm]

theorem allocPad_setup (a? : Option F) (n : Nat) :
    ∀ (ia wa : List F) (ni nw : Nat)
      (con : List (LinComb F × LinComb F × LinComb F)) (tr : List Role),
      allocPad a? n ⟨.Setup, ia, wa, ni, nw, con, tr⟩ =
        .ok ⟨.Setup, ia, wa, ni, nw + n, con,
             tr ++ List.replicate n .Witness⟩ := by
  induction n with
  | zero =>
      intro ia wa ni nw con tr
      simp [allocPad]
  | succ n ih =>
      intro ia wa ni nw con tr
      have step : allocPad a? (n + 1)
            (⟨.Setup, ia, wa, ni, nw, con, tr⟩ : CS F) =
          allocPad a? n
            ⟨.Setup, ia, wa, ni, nw + 1, con, tr ++ [.Witness]⟩ := rfl
      rw [step, ih]
      simp [List.replicate_succ, List.append_assoc, Nat.add_assoc,
        Nat.add_comm, Nat.add_left_comm]

theorem enforcePad_spec (a b c : Var) (n : Nat) :
    ∀ cs : CS F,
      enforcePad a b c n cs =
        .ok { cs with
                constraints := cs.constraints ++
                  List.replicate n ([(1, a)], [(1, b)], [(1, c)]) } := by
  induction n with
  | zero =>
      intro cs
      simp [enforcePad]
  | succ n ih =>
      intro cs
      have step : enforcePad a b c (n + 1) cs =
          enforcePad a b c n
            { cs with
                constraints := cs.constraints ++
                  [([(1, a)], [(1, b)], [(1, c)])] } := rfl
      rw [step, ih]
      simp [List.replicate_succ, List.append_assoc]

theorem multiplyRun_prove (av bv : F) (nc nv : Nat)
    (h3 : 3 ≤ nv) (h1 : 1 ≤ nc) :
    MultiplyDemoCircuit.generate_constraints (some av) (some bv) nc nv
        (CS.init .Prove) =
      .ok ⟨.Prove, [1, av * bv], av :: bv :: List.replicate (nv - 3) av,
           2, 2 + (nv - 3),
           List.replicate (nc - 1)
             ([(1, Var.wit 0)], [(1, Var.wit 1)], [(1, Var.inst 1)]),
           .Witness :: .Witness :: .PublicInput ::
             List.replicate (nv - 3) .Witness⟩ := by
  have step : MultiplyDemoCircuit.generate_constraints (some av) (some bv)
      nc nv (CS.init .Prove) = (do
        let nPad ← checkedSub nv 3
        let cs ← allocPad (some av) nPad
          (⟨.Prove, [1, av * bv], [av, bv], 2, 2, [],
            [.Witness, .Witness, .PublicInput]⟩ : CS F)
        let nCon ← checkedSub nc 1
        let cs ← enforcePad (.wit 0) (.wit 1) (.inst 1) nCon cs
        pure cs) := rfl
  rw [step]
  rw [show checkedSub nv 3 = .ok (nv - 3) by simp [checkedSub, h3]]
  rw [except_bind_ok, allocPad_prove, except_bind_ok]
  rw [show checkedSub nc 1 = .ok (nc - 1) by simp [checkedSub, h1]]
  rw [except_bind_ok, enforcePad_spec]
  rfl

theorem multiplyRun_setup (a? b? : Option F) (nc nv : Nat)
    (h3 : 3 ≤ nv) (h1 : 1 ≤ nc) :
    MultiplyDemoCircuit.generate_constraints a? b? nc nv
        (CS.init .Setup) =
      .ok ⟨.Setup, [1], [], 2, 2 + (nv - 3),
           List.replicate (nc - 1)
             ([(1, Var.wit 0)], [(1, Var.wit 1)], [(1, Var.inst 1)]),
           .Witness :: .Witness :: .PublicInput ::
             List.replicate (nv - 3) .Witness⟩ := by
  have step : MultiplyDemoCircuit.generate_constraints a? b? nc nv
      (CS.init .Setup) = (do
        let nPad ← checkedSub nv 3
        let cs ← allocPad a? nPad
          (⟨.Setup, [1], [], 2, 2, [],
            [.Witness, .Witness, .PublicInput]⟩ : CS F)
        let nCon ← checkedSub nc 1
        let cs ← enforcePad (.wit 0) (.wit 1) (.inst 1) nCon cs
        pure cs) := rfl
  rw [step]
  rw [show checkedSub nv 3 = .ok (nv - 3) by simp [checkedSub, h3]]
  rw [except_bind_ok, allocPad_setup, except_bind_ok]
  rw [show checkedSub nc 1 = .ok (nc - 1) by simp [checkedSub, h1]]
  rw [except_bind_ok, enforcePad_spec]
  rfl

/-- C1 counterexample: with `num_variables = 3, num_constraints = 1` the
product circuit produces 3 allocations but **0** constraints (the source
loop emits `num_constraints - 1` copies, not `num_constraints`); with
`num_variables = 24, num_constraints = 24` it produces 24 allocations and
**23** constraints, not 24. -/
theorem multiply_constraint_total_cex :
    Except.map (fun cs => (cs.allocTrace.length, cs.constraints.length))
      (MultiplyDemoCircuit.generate_constraints (some (6 : ZMod 101)) (some 7)
        1 3 (CS.init .Prove)) = .ok (3, 0) ∧
    Except.map (fun cs => (cs.allocTrace.length, cs.constraints.length))
      (MultiplyDemoCircuit.generate_constraints (some (6 : ZMod 101)) (some 7)
        24 24 (CS.init .Prove)) = .ok (24, 23) :=
  ⟨rfl, rfl⟩

/-- C1 (amended): product flattening emits the semantic constraint
`a·b = c` a total of `num_constraints − 1` times; with
`num_variables = 3, num_constraints = 1` it produces exactly 3 variable
allocations and 0 constraints, and with `num_variables = 24,
num_constraints = 24` it produces 24 allocations and 23 constraints —
every emitted constraint being the same `a·b = c`. -/
theorem multiply_constraint_total (m : Mode) (av bv : F) (nc nv : Nat)
    (h3 : 3 ≤ nv) (h1 : 1 ≤ nc) :
    ∃ cs : CS F,
      MultiplyDemoCircuit.generate_constraints (some av) (some bv) nc nv
          (CS.init m) = .ok cs ∧
      cs.allocTrace.length = nv ∧
      cs.constraints.length = nc - 1 ∧
      ∀ t ∈ cs.constraints,
        t = ([(1, Var.wit 0)], [(1, Var.wit 1)], [(1, Var.inst 1)]) := by
  cases m
  · refine ⟨_, multiplyRun_setup (some av) (some bv) nc nv h3 h1, ?_, ?_, ?_⟩
    · simp only [List.length_cons, List.length_replicate]
      omega
    · simp
    · intro t ht
      exact List.eq_of_mem_replicate (by simpa using ht)
  · refine ⟨_, multiplyRun_prove av bv nc nv h3 h1, ?_, ?_, ?_⟩
    · simp only [List.length_cons, List.length_replicate]
      omega
    · simp
    · intro t ht
      exact List.eq_of_mem_replicate (by simpa using ht)

/-- C1 witness: the amended count theorem instantiated at
`num_variables = 24, num_constraints = 24` over the concrete field. -/
theorem multiply_constraint_total_witness :
    ∃ cs : CS (ZMod 101),
      MultiplyDemoCircuit.generate_constraints (some 6) (some 7) 24 24
          (CS.init .Prove) = .ok cs ∧
      cs.allocTrace.length = 24 ∧
      cs.constraints.length = 23 ∧
      ∀ t ∈ cs.constraints,
        t = ([(1, Var.wit 0)], [(1, Var.wit 1)], [(1, Var.inst 1)]) := by
  simpa using
    multiply_constraint_total .Prove (6 : ZMod 101) 7 24 24
      (by decide) (by decide)

/-- C3 counterexample: with `num_variables = 2` (or `num_constraints = 0`)
the product circuit does **not** return a `SynthesisError`: the `usize`
subtraction underflows and the run panics (`RunError.panicked` models the
Rust overflow-check panic), contradicting the claim that flattening
returns an error rather than panicking. -/
theorem multiply_underflow_cex :
    MultiplyDemoCircuit.generate_constraints (some (1 : ZMod 101)) (some 1)
        1 2 (CS.init .Prove) = .error RunError.panicked ∧
    MultiplyDemoCircuit.generate_constraints (some (1 : ZMod 101)) (some 1)
        0 3 (CS.init .Prove) = .error RunError.panicked :=
  ⟨rfl, rfl⟩

/-- C3 (amended): with `num_variables < 3` or `num_constraints < 1` the
`usize` subtractions underflow and the run panics instead of returning an
error (see the counterexample); for valid parameters, proving-mode
flattening allocates exactly `num_variables − 3` additional inert Witness
variables whose value is copied from `a`. -/
theorem multiply_pad_inert_witnesses (av bv : F) (nc nv : Nat)
    (h3 : 3 ≤ nv) (h1 : 1 ≤ nc) :
    ∃ cs : CS F,
      MultiplyDemoCircuit.generate_constraints (some av) (some bv) nc nv
          (CS.init .Prove) = .ok cs ∧
      cs.witAssignment = av :: bv :: List.replicate (nv - 3) av ∧
      cs.numWit = 2 + (nv - 3) :=
  ⟨_, multiplyRun_prove av bv nc nv h3 h1, rfl, rfl⟩

/-- C3 witness: the amended padding theorem at `num_variables = 5,
num_constraints = 2`: exactly two extra witnesses, both copies of `a`. -/
theorem multiply_pad_inert_witnesses_witness :
    ∃ cs : CS (ZMod 101),
      MultiplyDemoCircuit.generate_constraints (some 2) (some 3) 2 5
          (CS.init .Prove) = .ok cs ∧
      cs.witAssignment = [2, 3, 2, 2] ∧
      cs.numWit = 4 := by
  simpa [List.replicate] using
    multiply_pad_inert_witnesses (2 : ZMod 101) 3 2 5 (by decide) (by decide)

/-- C8: in proving mode the product circuit allocates the public input `c`
with value `a·b` (instance assignment `[1, a·b]`, index 0 being the
constant One), and returns `Err(AssignmentMissing)` whenever `a` or `b`
(or both) is unset. -/
theorem multiply_public_input_product (av bv : F) (nc nv : Nat)
    (h3 : 3 ≤ nv) (h1 : 1 ≤ nc) :
    (∃ cs : CS F,
      MultiplyDemoCircuit.generate_constraints (some av) (some bv) nc nv
          (CS.init .Prove) = .ok cs ∧
      cs.instAssignment = [1, av * bv]) ∧
    MultiplyDemoCircuit.generate_constraints none (some bv) nc nv
        (CS.init .Prove) = .error (.synth .AssignmentMissing) ∧
    MultiplyDemoCircuit.generate_constraints (some av) none nc nv
        (CS.init .Prove) = .error (.synth .AssignmentMissing) ∧
    MultiplyDemoCircuit.generate_constraints (none : Option F) none nc nv
        (CS.init .Prove) = .error (.synth .AssignmentMissing) :=
  ⟨⟨_, multiplyRun_prove av bv nc nv h3 h1, rfl⟩, rfl, rfl, rfl⟩

/-- C8 witness: descriptor `a = 6, b = 7, num_variables = 3,
num_constraints = 1` allocates `c = 42`. -/
theorem multiply_public_input_product_witness :
    ∃ cs : CS (ZMod 101),
      MultiplyDemoCircuit.generate_constraints (some 6) (some 7) 1 3
          (CS.init .Prove) = .ok cs ∧
      cs.instAssignment = [1, 42] := by
  obtain ⟨⟨cs, hrun, hinst⟩, -, -, -⟩ :=
    multiply_public_input_product (6 : ZMod 101) 7 1 3 (by decide) (by decide)
  exact ⟨cs, hrun, by rw [hinst]; decide⟩

/-- C9: the native cubic evaluator returns `Ok(true)` iff
`x³ + x + 5 = y` exactly in the field, `Ok(false)` otherwise, and never
returns an error (its result is always the `Ok` of the decided equality). -/
theorem native_verify_iff (x y : F) :
    SolutionDemo.verify x y = .ok (decide (x * x * x + x + 5 = y)) ∧
    (SolutionDemo.verify x y = .ok true ↔ x ^ 3 + x + 5 = y) ∧
    (SolutionDemo.verify x y = .ok false ↔ ¬(x ^ 3 + x + 5 = y)) := by
  have hp : x * x * x = x ^ 3 := by ring
  refine ⟨rfl, ?_, ?_⟩ <;> simp [SolutionDemo.verify, hp]

/-! ### Computation lemmas for the gadget run -/

/-- The five rank-1 constraints of the gadget run: the two multiplications
of `x·x·x`, the booleanity constraint of `is_neq`'s bit, and the two
`is_neq` constraints relating `eval - y`, the multiplier, and the bit. -/
def gadgetConstraints (F : Type) [Field F] :
    List (LinComb F × LinComb F × LinComb F) :=
  [([(1, .wit 0)], [(1, .wit 0)], [(1, .wit 2)]),
   ([(1, .wit 2)], [(1, .wit 0)], [(1, .wit 3)]),
   ([(1, .one), (-1, .wit 4)], [(1, .wit 4)], []),
   ([(1, .wit 3), (1, .wit 0), ((5 : F), .one), (-1, .wit 1)],
      [(1, .wit 5)], [(1, .wit 4)]),
   ([(1, .wit 3), (1, .wit 0), ((5 : F), .one), (-1, .wit 1)],
      [(1, .one), (-1, .wit 4)], [])]

theorem gadgetRun_eq (xv yv : F) :
    gadgetRun xv yv =
      .ok (!decide (xv * xv * xv + xv + 5 ≠ yv),
        ⟨.Prove, [1],
         [xv, yv, xv * xv, xv * xv * xv,
          if decide (xv * xv * xv + xv + 5 ≠ yv) then (1 : F) else 0,
          if decide (xv * xv * xv + xv + 5 ≠ yv) then
            (xv * xv * xv + xv + 5 - yv)⁻¹ else 1],
         1, 6, gadgetConstraints F, List.replicate 6 .Witness⟩) := rfl

theorem gadgetRun_satisfied (xv yv : F) :
    ∃ (b : Bool) (cs : CS F), gadgetRun xv yv = .ok (b, cs) ∧
      b = decide (xv * xv * xv + xv + 5 = yv) ∧
      cs.satisfiedB = true := by
  refine ⟨_, _, gadgetRun_eq xv yv, ?_, ?_⟩
  · simp [decide_not]
  · by_cases h : xv * xv * xv + xv + 5 = yv
    · simp [CS.satisfiedB, gadgetConstraints, CS.lcEval, CS.varValue, h]
      linear_combination h
    · simp [CS.satisfiedB, gadgetConstraints, CS.lcEval, CS.varValue, h]
      have hne : xv * xv * xv + xv + 5 - yv ≠ 0 := sub_ne_zero.mpr h
      have e1 : xv * xv * xv + (xv + (5 + -yv)) =
          xv * xv * xv + xv + 5 - yv := by ring
      rw [e1]
      exact mul_inv_cancel₀ hne

/-- C4 counterexample: at `x = 0, y = 0` the native evaluator returns
`Ok(false)` (`5 ≠ 0`), yet the constraint system built by the gadget run is
**satisfied** by the honestly computed assignment — `is_eq` only binds the
returned circuit boolean (here valued `false`) to the comparison, it does
not make satisfiability track the native result.  This refutes
"the constraint system ... is satisfied iff the native check is true". -/
theorem gadget_satisfaction_cex :
    Except.map (fun p => p.2.satisfiedB) (gadgetRun (0 : ZMod 101) 0) =
        .ok true ∧
    Except.map (fun p => p.1) (gadgetRun (0 : ZMod 101) 0) = .ok false ∧
    SolutionDemo.verify (0 : ZMod 101) 0 = .ok false := by
  obtain ⟨b, cs, hrun, hb, hsat⟩ := gadgetRun_satisfied (0 : ZMod 101) 0
  refine ⟨?_, ?_, rfl⟩
  · rw [hrun]
    simp only [Except.map, Except.ok.injEq]
    exact hsat
  · rw [hrun]
    simp only [Except.map, Except.ok.injEq]
    rw [hb]
    decide

/-- C4 (amended): for every concrete field element `x` and claimed output
`y`, the gadget's `verify` returns a circuit boolean whose concrete value
equals the native evaluator's `verify` result on the same `x` and `y`; the
constraint system built by the gadget run is satisfied by the honestly
computed assignment in every case — the native result is reflected in the
returned boolean's value, not in satisfiability. -/
theorem gadget_native_parity (xv yv : F) :
    ∃ (b : Bool) (cs : CS F),
      gadgetRun xv yv = .ok (b, cs) ∧
      SolutionDemo.verify xv yv = .ok b ∧
      cs.satisfiedB = true := by
  obtain ⟨b, cs, hrun, hb, hsat⟩ := gadgetRun_satisfied xv yv
  exact ⟨b, cs, hrun, by rw [hb]; rfl, hsat⟩

end Arkwork
